import Mathlib

/-!
Shallow embedding of the tauri serialport plugin webview client
(`webview-src/index.ts`): the `Serialport` class, its state, and the
commands it issues over the command channel.  Remote calls are modelled by
an oracle `Env` giving each command a response; each operation returns its
result, the updated local state, and the trace of commands it issued, in
program order.  The event-feed collaborator (`appWindow.listen` /
the returned unlisten function) is modelled as a set of active
subscription ids with a fresh-id counter.
-/

namespace SerialportPlugin

/-- Flow control value: the source accepts `null | 'Software' | 'Hardware'`;
`null` is represented as `none` around this type. -/
inductive FlowControl
  | software
  | hardware
deriving DecidableEq, Repr

/-- Parity value: `null | 'Odd' | 'Even'`; `null` is `none`. -/
inductive Parity
  | odd
  | even
deriving DecidableEq, Repr

/-- JavaScript `x || d` on an optional number: `undefined` and `0` are falsy
and fall back to the default. -/
def jsOrNat : Option Nat → Nat → Nat
  | none, d => d
  | some v, d => if v = 0 then d else v

/-- JavaScript `x || d` on an optional string: `undefined` and the empty
string are falsy and fall back to the default. -/
def jsOrStr : Option String → String → String
  | none, d => d
  | some v, d => if v = "" then d else v

/-- The `SerialportOptions` interface, the constructor argument; optional
fields absent (`undefined`) are `none`. -/
structure SerialportOptions where
  path : String
  baudRate : Nat
  encoding : Option String := none
  dataBits : Option Nat := none
  flowControl : Option FlowControl := none
  parity : Option Parity := none
  stopBits : Option Nat := none
  timeout : Option Nat := none
  size : Option Nat := none
deriving DecidableEq, Repr

/-- The internal `Options` record stored at `this.options`. -/
structure Options where
  path : String
  baudRate : Nat
  dataBits : Nat
  flowControl : Option FlowControl
  parity : Option Parity
  stopBits : Nat
  timeout : Nat
deriving DecidableEq, Repr

/-- `ReadOptions`: the per-call `{ timeout?, size? }` overrides for `read`. -/
structure ReadOptions where
  timeout : Option Nat := none
  size : Option Nat := none
deriving DecidableEq, Repr

/-- The mutable fields of a `Serialport` instance.  `unListen` holds the id
of the active event-feed subscription when a listener is registered
(the stored unlisten closure in the source). -/
structure Session where
  isOpen : Bool
  unListen : Option Nat
  encoding : String
  options : Options
  size : Nat
deriving DecidableEq, Repr

/-- The commands issued over the command channel (the
`invoke('plugin:serialport|...')` calls), with their arguments. -/
inductive Cmd
  | availablePorts
  | forceClose (path : String)
  | closeAll
  | cancelRead (path : String)
  | close (path : String)
  | openPort (path : String) (baudRate : Nat) (dataBits : Nat)
      (flowControl : Option FlowControl) (parity : Option Parity)
      (stopBits : Nat) (timeout : Nat)
  | read (path : String) (timeout : Nat) (size : Nat)
  | write (path : String) (value : String)
  | writeBinary (path : String) (value : List Nat)
deriving DecidableEq, Repr

/-- Oracle for the command channel: the response the remote side gives to
each command.  `.ok n` is an acknowledgment (`n` is the byte count for the
write commands and is ignored for acknowledgment-only commands); `.error e`
is a remote failure, which `invoke` surfaces as a rejection. -/
abbrev Env : Type := Cmd → Except String Nat

/-- State of the event-feed collaborator: the currently active
subscriptions (by id) and a counter supplying fresh ids for new
registrations. -/
structure Feed where
  subs : List Nat
  next : Nat
deriving DecidableEq, Repr

/-- The `Serialport` constructor: pure local state, defaults filled with
JavaScript `||` (so falsy provided values fall back), and no remote
command issued (the empty trace). -/
def mkSerialport (o : SerialportOptions) : Session × List Cmd :=
  ({ isOpen := false
     unListen := none
     encoding := jsOrStr o.encoding "utf-8"
     options :=
       { path := o.path
         baudRate := o.baudRate
         dataBits := jsOrNat o.dataBits 8
         flowControl := o.flowControl
         parity := o.parity
         stopBits := jsOrNat o.stopBits 2
         timeout := jsOrNat o.timeout 200 }
     size := jsOrNat o.size 1024 }, [])

/-- `cancelListen()`: if an unlisten closure is stored, call it (releasing
the feed subscription) and clear it; otherwise do nothing.  Calling the
unlisten closure never throws, so the catch branch in the source is
unreachable and the operation always succeeds. -/
def cancelListen (s : Session) (f : Feed) : Session × Feed :=
  match s.unListen with
  | none => (s, f)
  | some i => ({ s with unListen := none }, { f with subs := f.subs.erase i })

/-- `cancelRead()`: issues the `cancel_read` command for the current path
and surfaces the remote result. -/
def cancelRead (env : Env) (s : Session) : Except String Unit × List Cmd :=
  match env (Cmd.cancelRead s.options.path) with
  | .ok _ => (.ok (), [Cmd.cancelRead s.options.path])
  | .error e => (.error e, [Cmd.cancelRead s.options.path])

/-- `close()`: no-op when not open; otherwise `cancelRead()`, then the
`close` command, then `cancelListen()`, then `isOpen = false`.  A failure
of either remote call rejects with that error and leaves all state
unchanged. -/
def close (env : Env) (s : Session) (f : Feed) :
    Except String Unit × Session × Feed × List Cmd :=
  if s.isOpen = false then (.ok (), s, f, [])
  else
    match cancelRead env s with
    | (.error e, tr) => (.error e, s, f, tr)
    | (.ok _, tr) =>
      match env (Cmd.close s.options.path) with
      | .error e => (.error e, s, f, tr ++ [Cmd.close s.options.path])
      | .ok _ =>
        let p := cancelListen s f
        (.ok (), { p.1 with isOpen := false }, p.2,
          tr ++ [Cmd.close s.options.path])

/-- `open()`: local validation first (empty path, then falsy baud rate,
each rejecting with no remote call), a silent no-op when already open,
otherwise the `open` command with the full configuration; on success
`isOpen = true`. -/
def openPort (env : Env) (s : Session) : Except String Unit × Session × List Cmd :=
  if s.options.path = "" then (.error "Path cannot be empty!", s, [])
  else if s.options.baudRate = 0 then (.error "Baudrate cannot be empty!", s, [])
  else if s.isOpen then (.ok (), s, [])
  else
    match env (Cmd.openPort s.options.path s.options.baudRate s.options.dataBits
        s.options.flowControl s.options.parity s.options.stopBits
        s.options.timeout) with
    | .ok _ =>
      (.ok (), { s with isOpen := true },
        [Cmd.openPort s.options.path s.options.baudRate s.options.dataBits
          s.options.flowControl s.options.parity s.options.stopBits
          s.options.timeout])
    | .error e =>
      (.error e, s,
        [Cmd.openPort s.options.path s.options.baudRate s.options.dataBits
          s.options.flowControl s.options.parity s.options.stopBits
          s.options.timeout])

/-- The `read` command `read()` issues: `options?.timeout || this.options.timeout`
and `options?.size || this.size` (JavaScript falsy fallback). -/
def readCmd (s : Session) (opts : Option ReadOptions) : Cmd :=
  Cmd.read s.options.path
    (jsOrNat (opts.bind ReadOptions.timeout) s.options.timeout)
    (jsOrNat (opts.bind ReadOptions.size) s.size)

/-- `read()`: issues the read command (no open-state guard at this layer)
and surfaces the remote acknowledgment or failure; the data itself arrives
via the event feed. -/
def read (env : Env) (s : Session) (opts : Option ReadOptions) :
    Except String Unit × List Cmd :=
  match env (readCmd s opts) with
  | .ok _ => (.ok (), [readCmd s opts])
  | .error e => (.error e, [readCmd s opts])

/-- `write(value)`: rejects locally (no remote call) when not open,
otherwise issues the `write` command and returns the accepted byte count. -/
def write (env : Env) (s : Session) (value : String) :
    Except String Nat × Session × List Cmd :=
  if s.isOpen = false then
    (.error ("Serial port " ++ s.options.path ++ " is not opened!"), s, [])
  else
    match env (Cmd.write s.options.path value) with
    | .ok n => (.ok n, s, [Cmd.write s.options.path value])
    | .error e => (.error e, s, [Cmd.write s.options.path value])

/-- `writeBinary(value)`: rejects locally (no remote call) when not open,
otherwise issues the `write_binary` command.  The payload is a byte
sequence, so the runtime type check in the source always passes. -/
def writeBinary (env : Env) (s : Session) (value : List Nat) :
    Except String Nat × Session × List Cmd :=
  if s.isOpen = false then
    (.error ("Serial port " ++ s.options.path ++ " is not open!"), s, [])
  else
    match env (Cmd.writeBinary s.options.path value) with
    | .ok n => (.ok n, s, [Cmd.writeBinary s.options.path value])
    | .error e => (.error e, s, [Cmd.writeBinary s.options.path value])

/-- `listen(fn, isDecode)` registration step: first `cancelListen()`
(releasing any prior subscription), then register a new subscription on
the feed channel derived from the path and store its unlisten closure.
Registration itself is modelled as always succeeding. -/
def listen (s : Session) (f : Feed) : Session × Feed :=
  let p := cancelListen s f
  ({ p.1 with unListen := some p.2.next },
   { subs := p.2.next :: p.2.subs, next := p.2.next + 1 })

/-- What the listener callback receives on one delivery: decoded text when
`isDecode`, otherwise the raw byte sequence. -/
inductive Delivered
  | text (s : String)
  | bytes (b : List Nat)
deriving DecidableEq, Repr

/-- The argument the event handler passes to the callback: the payload
decoded with the session's encoding when `isDecode`, else the raw bytes.
`decode` abstracts `TextDecoder` (which never throws with default
options). -/
def eventArg (decode : String → List Nat → String) (s : Session)
    (isDecode : Bool) (data : List Nat) : Delivered :=
  if isDecode then Delivered.text (decode s.encoding data)
  else Delivered.bytes data

/-- One event delivery through the handler installed by `listen`: the
callback runs inside a try/catch whose catch logs the error
(`console.error`).  Returns the session, the feed, the handler's own
result, and the logged error if any. -/
def deliverEvent (decode : String → List Nat → String) (s : Session) (f : Feed)
    (isDecode : Bool) (fn : Delivered → Except String Unit) (data : List Nat) :
    Session × Feed × Except String Unit × Option String :=
  match fn (eventArg decode s isDecode data) with
  | .ok _ => (s, f, .ok (), none)
  | .error e => (s, f, .ok (), some e)

/-- The field mutations of `change`: `if (options.path)` and
`if (options.baudRate)` guard each assignment, so falsy values (empty
string, zero) are not applied. -/
def applyChange (s : Session) (path : Option String) (baudRate : Option Nat) :
    Session :=
  let s1 := match path with
    | some p =>
      if p = "" then s else { s with options := { s.options with path := p } }
    | none => s
  match baudRate with
  | some b =>
    if b = 0 then s1 else { s1 with options := { s1.options with baudRate := b } }
  | none => s1

/-- `change({path?, baudRate?})`: when open, `close()` first (propagating
its failure before any mutation), then the guarded mutations, then
`open()` (propagating its failure); when closed, just the mutations. -/
def change (env : Env) (s : Session) (f : Feed)
    (path : Option String) (baudRate : Option Nat) :
    Except String Unit × Session × Feed × List Cmd :=
  if s.isOpen then
    match close env s f with
    | (.error e, s1, f1, tr) => (.error e, s1, f1, tr)
    | (.ok _, s1, f1, tr) =>
      match openPort env (applyChange s1 path baudRate) with
      | (r, s3, tr2) => (r, s3, f1, tr ++ tr2)
  else
    (.ok (), applyChange s path baudRate, f, [])

/-- The at-most-one-subscription invariant between a session and the feed
(for the single-session world): the active subscriptions are exactly the
one the session owns, and any owned id is below the fresh-id counter. -/
def SubInv (s : Session) (f : Feed) : Prop :=
  f.subs = s.unListen.toList
  ∧ match s.unListen with
    | none => True
    | some i => i < f.next

/-- An oracle acknowledging every command. -/
def envOk : Env := fun _ => .ok 0

/-- An oracle failing the `cancel_read` command and acknowledging the
rest. -/
def envCancelReadFails : Env := fun c =>
  match c with
  | Cmd.cancelRead _ => .error "remote boom"
  | _ => .ok 0

/-- An oracle failing the `open` command and acknowledging the rest. -/
def envOpenFails : Env := fun c =>
  match c with
  | Cmd.openPort _ _ _ _ _ _ _ => .error "device gone"
  | _ => .ok 0

/-- The session constructed from `{path: "COM3", baudRate: 9600}`. -/
def sessionCOM3 : Session := (mkSerialport { path := "COM3", baudRate := 9600 }).1

/-- A configuration whose optional fields are all explicitly falsy. -/
def optsFalsy : SerialportOptions :=
  { path := "COM3", baudRate := 9600, timeout := some 0, size := some 0,
    encoding := some "" }

/-- The session constructed with an empty path. -/
def sessionNoPath : Session := (mkSerialport { path := "", baudRate := 9600 }).1

/-- The COM3 session after a successful open and listen: open, owning
subscription 0. -/
def sessionOpen : Session := { sessionCOM3 with isOpen := true, unListen := some 0 }

/-- A feed on which subscription 0 is active and 1 is the next fresh id. -/
def feed1 : Feed := { subs := [0], next := 1 }

/-- The trace of `read` is the single read command, whatever the remote
response. -/
theorem read_trace (env : Env) (s : Session) (opts : Option ReadOptions) :
    (read env s opts).2 = [readCmd s opts] := by
  unfold read
  cases env (readCmd s opts) <;> rfl

/-- The session part of `cancelListen` just clears the stored unlisten
closure. -/
theorem cancelListen_fst (s : Session) (f : Feed) :
    (cancelListen s f).1 = { s with unListen := none } := by
  cases h : s.unListen <;> simp [cancelListen, h]
  cases s
  simp_all

/-- `close` on an open session whose two remote calls are acknowledged:
the result, final state and trace, in one equation. -/
theorem close_ok_eq (env : Env) (s : Session) (f : Feed) (n1 n2 : Nat)
    (h : s.isOpen = true)
    (h1 : env (Cmd.cancelRead s.options.path) = .ok n1)
    (h2 : env (Cmd.close s.options.path) = .ok n2) :
    close env s f =
      (.ok (), { (cancelListen s f).1 with isOpen := false },
        (cancelListen s f).2,
        [Cmd.cancelRead s.options.path, Cmd.close s.options.path]) := by
  simp [close, cancelRead, h, h1, h2]

/-- C10: the constructor treats explicitly provided falsy optional values
as absent: with `timeout: 0`, `size: 0`, `encoding: ""` the constructed
session carries the defaults 200, 1024 and "utf-8"; construction leaves
the session closed and issues no remote command. -/
theorem constructor_falsy_defaults (o : SerialportOptions)
    (ht : o.timeout = some 0) (hs : o.size = some 0)
    (he : o.encoding = some "") :
    (mkSerialport o).1.options.timeout = 200
    ∧ (mkSerialport o).1.size = 1024
    ∧ (mkSerialport o).1.encoding = "utf-8"
    ∧ (mkSerialport o).1.isOpen = false
    ∧ (mkSerialport o).2 = [] := by
  simp [mkSerialport, jsOrNat, jsOrStr, ht, hs, he]

/-- C10 witness: the falsy-override configuration at a concrete input. -/
theorem constructor_falsy_defaults_witness :
    (mkSerialport optsFalsy).1.options.timeout = 200
    ∧ (mkSerialport optsFalsy).1.size = 1024
    ∧ (mkSerialport optsFalsy).1.encoding = "utf-8"
    ∧ (mkSerialport optsFalsy).1.isOpen = false
    ∧ (mkSerialport optsFalsy).2 = [] :=
  constructor_falsy_defaults optsFalsy rfl rfl rfl

/-- C1 counterexample: reading with `{timeout: 0, size: 0}` on the COM3
session (default timeout 200, chunk size 1024) issues the read command
with 200 and 1024 — not with the caller's 0 and 0 as the claim's
nullish-coalescing reading requires. -/
theorem read_zero_override_counterexample :
    (read envOk sessionCOM3 (some { timeout := some 0, size := some 0 })).2
      = [Cmd.read "COM3" 200 1024]
    ∧ (read envOk sessionCOM3 (some { timeout := some 0, size := some 0 })).2
      ≠ [Cmd.read "COM3" 0 0] := by
  decide

/-- C1 amended: for every session and every read options argument (any
shape: options absent, a field absent, a field zero, a field nonzero,
independently per field), `read` issues exactly one read command on the
session's path whose effective timeout is `opts.timeout` when that field
is given and nonzero and the session's default timeout when it is absent
or zero, and whose effective size is `opts.size` when that field is given
and nonzero and the session's default chunk size when it is absent or
zero. -/
theorem read_effective_params (env : Env) (s : Session)
    (opts : Option ReadOptions) :
    ∃ t sz, (read env s opts).2 = [Cmd.read s.options.path t sz]
    ∧ (∀ v, opts.bind ReadOptions.timeout = some v → v ≠ 0 → t = v)
    ∧ ((opts.bind ReadOptions.timeout = none
        ∨ opts.bind ReadOptions.timeout = some 0) → t = s.options.timeout)
    ∧ (∀ v, opts.bind ReadOptions.size = some v → v ≠ 0 → sz = v)
    ∧ ((opts.bind ReadOptions.size = none
        ∨ opts.bind ReadOptions.size = some 0) → sz = s.size) := by
  refine ⟨jsOrNat (opts.bind ReadOptions.timeout) s.options.timeout,
    jsOrNat (opts.bind ReadOptions.size) s.size, ?_, ?_, ?_, ?_, ?_⟩
  · rw [read_trace]; rfl
  · intro v hv hv0; rw [hv]; simp [jsOrNat, hv0]
  · rintro (hv | hv) <;> rw [hv] <;> simp [jsOrNat]
  · intro v hv hv0; rw [hv]; simp [jsOrNat, hv0]
  · rintro (hv | hv) <;> rw [hv] <;> simp [jsOrNat]

/-- C1 amended witness: a mixed shape — nonzero timeout override with a
zero size override — uses 5 for the timeout and the default 1024 for the
size. -/
theorem read_effective_params_witness :
    (read envOk sessionCOM3 (some { timeout := some 5, size := some 0 })).2
      = [Cmd.read "COM3" 5 1024] := by
  obtain ⟨t, sz, htr, ht1, _, _, hsz0⟩ :=
    read_effective_params envOk sessionCOM3
      (some { timeout := some 5, size := some 0 })
  rw [htr, ht1 5 rfl (by decide), hsz0 (Or.inr rfl)]
  rfl

/-- C2: on a session that is not open, `write` and `writeBinary` both
reject with the locally raised not-open message, issue no remote command,
and leave the session unchanged. -/
theorem write_not_open (env : Env) (s : Session) (v : String) (b : List Nat)
    (h : s.isOpen = false) :
    (write env s v).1
      = .error ("Serial port " ++ s.options.path ++ " is not opened!")
    ∧ (write env s v).2.1 = s
    ∧ (write env s v).2.2 = []
    ∧ (writeBinary env s b).1
      = .error ("Serial port " ++ s.options.path ++ " is not open!")
    ∧ (writeBinary env s b).2.1 = s
    ∧ (writeBinary env s b).2.2 = [] := by
  simp [write, writeBinary, h]

/-- C2 witness: the closed COM3 session rejects a text and a binary
write with no remote call. -/
theorem write_not_open_witness :
    (write envOk sessionCOM3 "hi").2.2 = []
    ∧ (writeBinary envOk sessionCOM3 [104, 105]).2.2 = [] :=
  ⟨(write_not_open envOk sessionCOM3 "hi" [104, 105] rfl).2.2.1,
   (write_not_open envOk sessionCOM3 "hi" [104, 105] rfl).2.2.2.2.2⟩

/-- C4: `close` on a session that is not open is a no-op: it resolves
successfully, issues no remote command, and changes neither the session
nor the feed. -/
theorem close_closed_noop (env : Env) (s : Session) (f : Feed)
    (h : s.isOpen = false) :
    close env s f = (.ok (), s, f, []) := by
  simp [close, h]

/-- C4 witness: closing the freshly constructed COM3 session. -/
theorem close_closed_noop_witness :
    close envOk sessionCOM3 feed1 = (.ok (), sessionCOM3, feed1, []) :=
  close_closed_noop envOk sessionCOM3 feed1 rfl

/-- C6: `open` on a session with an empty path or a falsy (unset) baud
rate rejects with a locally raised validation error, issues no remote
command, and leaves the session unchanged (so a closed session stays
closed). -/
theorem open_validation (env : Env) (s : Session)
    (h : s.options.path = "" ∨ s.options.baudRate = 0) :
    (∃ msg, (openPort env s).1 = .error msg)
    ∧ (openPort env s).2.1 = s
    ∧ (openPort env s).2.2 = [] := by
  rcases h with h | h
  · simp [openPort, h]
  · by_cases hp : s.options.path = "" <;> simp [openPort, h, hp]

/-- C6 witness: opening a session constructed with an empty path. -/
theorem open_validation_witness :
    (openPort envOk sessionNoPath).2.1 = sessionNoPath
    ∧ (openPort envOk sessionNoPath).2.2 = [] :=
  (open_validation envOk sessionNoPath (Or.inl rfl)).2

/-- C3: on an open session whose remote calls succeed, `close` issues
exactly `cancel_read` then `close`, in that order; the final state is the
one `cancelListen` produces (subscription released) with `isOpen` then set
to false. -/
theorem close_open_sequence (env : Env) (s : Session) (f : Feed)
    (h : s.isOpen = true)
    (h1 : ∃ n, env (Cmd.cancelRead s.options.path) = .ok n)
    (h2 : ∃ n, env (Cmd.close s.options.path) = .ok n) :
    (close env s f).1 = .ok ()
    ∧ (close env s f).2.2.2
        = [Cmd.cancelRead s.options.path, Cmd.close s.options.path]
    ∧ (close env s f).2.1 = { (cancelListen s f).1 with isOpen := false }
    ∧ (close env s f).2.2.1 = (cancelListen s f).2
    ∧ (close env s f).2.1.unListen = none := by
  obtain ⟨n1, e1⟩ := h1
  obtain ⟨n2, e2⟩ := h2
  rw [close_ok_eq env s f n1 n2 h e1 e2]
  refine ⟨rfl, rfl, rfl, rfl, ?_⟩
  simp [cancelListen_fst]

/-- C3 witness: closing the open COM3 session with an acknowledging
oracle issues cancel_read then close and ends not open. -/
theorem close_open_sequence_witness :
    (close envOk sessionOpen feed1).1 = .ok ()
    ∧ (close envOk sessionOpen feed1).2.2.2
        = [Cmd.cancelRead "COM3", Cmd.close "COM3"] :=
  ⟨(close_open_sequence envOk sessionOpen feed1 rfl ⟨0, rfl⟩ ⟨0, rfl⟩).1,
   (close_open_sequence envOk sessionOpen feed1 rfl ⟨0, rfl⟩ ⟨0, rfl⟩).2.1⟩

/-- C5: on an open session, a failure of either remote call made during
`close` (the cancel_read command or the close command) propagates to the
caller and leaves the session and the feed exactly as they were:
`isOpen` stays true and the subscription is not released. -/
theorem close_failure_unchanged (env : Env) (s : Session) (f : Feed)
    (e : String) (h : s.isOpen = true) :
    (env (Cmd.cancelRead s.options.path) = .error e →
      close env s f = (.error e, s, f, [Cmd.cancelRead s.options.path]))
    ∧ (∀ n, env (Cmd.cancelRead s.options.path) = .ok n →
        env (Cmd.close s.options.path) = .error e →
        close env s f = (.error e, s, f,
          [Cmd.cancelRead s.options.path, Cmd.close s.options.path])) := by
  constructor
  · intro he
    simp [close, cancelRead, h, he]
  · intro n hn he
    simp [close, cancelRead, h, hn, he]

/-- C5 witness: with an oracle failing cancel_read, `close` on the open
COM3 session rejects with that error and changes nothing. -/
theorem close_failure_unchanged_witness :
    close envCancelReadFails sessionOpen feed1
      = (.error "remote boom", sessionOpen, feed1, [Cmd.cancelRead "COM3"]) :=
  (close_failure_unchanged envCancelReadFails sessionOpen feed1
    "remote boom" rfl).1 rfl

/-- C7: on an open session (nonempty path) whose cancel_read and close
commands are acknowledged, `change {baudRate := v}` with v nonzero issues
exactly the close sequence (cancel_read, close) followed by the open
command already carrying the mutated baud rate v — close, then the
mutation, then open, strictly in sequence — and always leaves
`baudRate = v`; if the remote open command is acknowledged the call
resolves successfully and the session ends open, and if the remote open
command fails (the internal reopen fails) the call rejects with exactly
that failure and the session ends closed. -/
theorem change_baudRate_reopen (env : Env) (s : Session) (f : Feed) (v : Nat)
    (hopen : s.isOpen = true) (hv : v ≠ 0) (hpath : s.options.path ≠ "")
    (h1 : ∃ n, env (Cmd.cancelRead s.options.path) = .ok n)
    (h2 : ∃ n, env (Cmd.close s.options.path) = .ok n) :
    (change env s f none (some v)).2.2.2
      = [Cmd.cancelRead s.options.path, Cmd.close s.options.path,
         Cmd.openPort s.options.path v s.options.dataBits
           s.options.flowControl s.options.parity s.options.stopBits
           s.options.timeout]
    ∧ ((change env s f none (some v)).2.1).options.baudRate = v
    ∧ (∀ m, env (Cmd.openPort s.options.path v s.options.dataBits
          s.options.flowControl s.options.parity s.options.stopBits
          s.options.timeout) = .ok m →
        (change env s f none (some v)).1 = .ok ()
        ∧ ((change env s f none (some v)).2.1).isOpen = true)
    ∧ (∀ e, env (Cmd.openPort s.options.path v s.options.dataBits
          s.options.flowControl s.options.parity s.options.stopBits
          s.options.timeout) = .error e →
        (change env s f none (some v)).1 = .error e
        ∧ ((change env s f none (some v)).2.1).isOpen = false) := by
  obtain ⟨n1, e1⟩ := h1
  obtain ⟨n2, e2⟩ := h2
  have hc := close_ok_eq env s f n1 n2 hopen e1 e2
  have hs1 := cancelListen_fst s f
  refine ⟨?_, ?_, ?_, ?_⟩
  · cases ho : env (Cmd.openPort s.options.path v s.options.dataBits
        s.options.flowControl s.options.parity s.options.stopBits
        s.options.timeout) <;>
      simp [change, hopen, hc, hs1, applyChange, hv, openPort, hpath, ho]
  · cases ho : env (Cmd.openPort s.options.path v s.options.dataBits
        s.options.flowControl s.options.parity s.options.stopBits
        s.options.timeout) <;>
      simp [change, hopen, hc, hs1, applyChange, hv, openPort, hpath, ho]
  · intro m hm
    constructor <;>
      simp [change, hopen, hc, hs1, applyChange, hv, openPort, hpath, hm]
  · intro e he
    constructor <;>
      simp [change, hopen, hc, hs1, applyChange, hv, openPort, hpath, he]

/-- C7 witness: with every command acknowledged, changing the open COM3
session to 115200 baud ends open; with an oracle failing the open
command, the same call rejects with that very error and ends closed. -/
theorem change_baudRate_reopen_witness :
    ((change envOk sessionOpen feed1 none (some 115200)).2.1).isOpen = true
    ∧ (change envOpenFails sessionOpen feed1 none (some 115200)).1
        = .error "device gone"
    ∧ ((change envOpenFails sessionOpen feed1 none (some 115200)).2.1).isOpen
        = false :=
  ⟨((change_baudRate_reopen envOk sessionOpen feed1 115200 rfl (by decide)
      (by decide) ⟨0, rfl⟩ ⟨0, rfl⟩).2.2.1 0 rfl).2,
   ((change_baudRate_reopen envOpenFails sessionOpen feed1 115200 rfl
      (by decide) (by decide) ⟨0, rfl⟩ ⟨0, rfl⟩).2.2.2 "device gone" rfl).1,
   ((change_baudRate_reopen envOpenFails sessionOpen feed1 115200 rfl
      (by decide) (by decide) ⟨0, rfl⟩ ⟨0, rfl⟩).2.2.2 "device gone" rfl).2⟩

/-- C8: under the at-most-one-subscription invariant the session owns at
most one active subscription; `listen`, `cancelListen` and `close` all
preserve the invariant; `listen` releases the prior subscription (its id
is no longer active after re-registration); and `cancelListen` is
idempotent. -/
theorem single_subscription_invariant (env : Env) (s : Session) (f : Feed)
    (h : SubInv s f) :
    f.subs.length ≤ 1
    ∧ SubInv (listen s f).1 (listen s f).2
    ∧ SubInv (cancelListen s f).1 (cancelListen s f).2
    ∧ SubInv (close env s f).2.1 (close env s f).2.2.1
    ∧ (∀ i, s.unListen = some i → i ∉ ((listen s f).2).subs)
    ∧ cancelListen (cancelListen s f).1 (cancelListen s f).2
        = cancelListen s f := by
  obtain ⟨h1, h2⟩ := h
  have hlen : f.subs.length ≤ 1 := by
    cases hu : s.unListen <;> rw [hu] at h1 <;> simp [h1]
  have hcanc : SubInv (cancelListen s f).1 (cancelListen s f).2 := by
    cases hu : s.unListen
    · rw [hu] at h1
      exact ⟨by simpa [cancelListen, hu] using h1, by simp [cancelListen, hu]⟩
    · rw [hu] at h1
      exact ⟨by simp [cancelListen, hu, h1], by simp [cancelListen, hu]⟩
  have hlis : SubInv (listen s f).1 (listen s f).2 := by
    cases hu : s.unListen <;> rw [hu] at h1 <;>
      exact ⟨by simp [listen, cancelListen, hu, h1],
        by simp [listen, cancelListen, hu]⟩
  have hclo : SubInv (close env s f).2.1 (close env s f).2.2.1 := by
    by_cases ho : s.isOpen = false
    · exact ⟨by simp [close, ho, h1], by simpa [close, ho] using h2⟩
    · have ho' : s.isOpen = true := by simpa using ho
      cases hcr : env (Cmd.cancelRead s.options.path) with
      | error e =>
        exact ⟨by simp [close, cancelRead, ho', hcr, h1],
          by simpa [close, cancelRead, ho', hcr] using h2⟩
      | ok n =>
        cases hc2 : env (Cmd.close s.options.path) with
        | error e =>
          exact ⟨by simp [close, cancelRead, ho', hcr, hc2, h1],
            by simpa [close, cancelRead, ho', hcr, hc2] using h2⟩
        | ok m =>
          rw [close_ok_eq env s f n m ho' hcr hc2]
          cases hu : s.unListen
          · rw [hu] at h1
            exact ⟨by simp [cancelListen, hu, h1], by simp [cancelListen, hu]⟩
          · rw [hu] at h1
            exact ⟨by simp [cancelListen, hu, h1], by simp [cancelListen, hu]⟩
  have hprior : ∀ i, s.unListen = some i → i ∉ ((listen s f).2).subs := by
    intro i hi
    rw [hi] at h1 h2
    simp [listen, cancelListen, hi, h1]
    omega
  have hidem : cancelListen (cancelListen s f).1 (cancelListen s f).2
      = cancelListen s f := by
    cases hu : s.unListen <;> simp [cancelListen, hu]
  exact ⟨hlen, hlis, hcanc, hclo, hprior, hidem⟩

/-- C8 witness: idempotence of `cancelListen` on the open COM3 session
that owns subscription 0. -/
theorem single_subscription_invariant_witness :
    cancelListen (cancelListen sessionOpen feed1).1
        (cancelListen sessionOpen feed1).2
      = cancelListen sessionOpen feed1 :=
  (single_subscription_invariant envOk sessionOpen feed1
    ⟨rfl, Nat.zero_lt_one⟩).2.2.2.2.2

/-- C9: one event delivery through the listener handler never modifies
the session or the feed (the subscription stays registered), the handler
itself always succeeds (a throwing callback does not propagate), and a
callback error is logged. -/
theorem listener_error_isolated (decode : String → List Nat → String)
    (s : Session) (f : Feed) (isDecode : Bool)
    (fn : Delivered → Except String Unit) (data : List Nat) :
    (deliverEvent decode s f isDecode fn data).1 = s
    ∧ (deliverEvent decode s f isDecode fn data).2.1 = f
    ∧ (deliverEvent decode s f isDecode fn data).2.2.1 = .ok ()
    ∧ (∀ e, fn (eventArg decode s isDecode data) = .error e →
        (deliverEvent decode s f isDecode fn data).2.2.2 = some e) := by
  unfold deliverEvent
  cases hf : fn (eventArg decode s isDecode data) <;> simp [hf]

/-- C9 witness: a callback that always throws is logged and the handler
still succeeds on a concrete delivery. -/
theorem listener_error_isolated_witness :
    (deliverEvent (fun _ _ => "") sessionOpen feed1 true
      (fun _ => Except.error "boom") [104, 105]).2.2.2 = some "boom" :=
  (listener_error_isolated (fun _ _ => "") sessionOpen feed1 true
    (fun _ => Except.error "boom") [104, 105]).2.2.2 "boom" rfl

end SerialportPlugin
